import Mathlib

/-!
Verification of the task-creation and assignment workflow of the
Agile_Development task-management application.

The repository ships the unit tests of the create-task Lambda function
(lambda/tests/unit/create-task.test.js), its integration tests
(lambda/tests/integration/api.test.js) and a demonstration mock handler
defined inside the unit test file.  The production create-task handler
itself is not part of the source tree, so the full workflow
(authorization, validation, assignee resolution, persistence,
notification) is modelled from the specification, while the mock handler
from create-task.test.js lines 11-26 is embedded directly.
-/

set_option autoImplicit false

namespace AgileTasks

/-- Priority values accepted by the validator, from the spec and from
the integration test's validPriorities list. -/
def validPriorities : List String := ["low", "normal", "high", "urgent"]

/-- A directory (users table) entry as returned by the user lookup. -/
structure DirUser where
  userId : String
  email : String
  status : String
deriving Repr, DecidableEq

/-- The structured task-creation payload of spec section 6:
title, optional description, optional priority, optional dueDate,
assignedTo list.  An absent or empty title is represented by the empty
string, mirroring JavaScript falsiness of missing or empty strings. -/
structure Payload where
  title : String
  description : String
  priority : Option String
  dueDate : Option String
  assignedTo : List String
deriving Repr, DecidableEq

/-- One email message handed to the email service; recipient is the
address the message is sent to. -/
structure EmailMsg where
  recipient : String
  subject : String
  body : String
deriving Repr, DecidableEq

/-- A task record as persisted by the workflow.  The freshly generated
identifier is modelled as a natural number supplied by the identifier
generator. -/
structure Task where
  taskId : Nat
  title : String
  description : String
  priority : String
  status : String
  assignedTo : List String
  dueDate : Option String
  createdBy : String
  createdAt : String
deriving Repr, DecidableEq

/-- The observable outcome of one workflow invocation: HTTP status code,
response message, the returned task (on 201), the number of storage put
calls, the number of directory lookups and the list of emails sent. -/
structure WfResult where
  statusCode : Nat
  message : String
  task : Option Task
  putCalls : Nat
  lookupCalls : Nat
  sends : List EmailMsg
deriving Repr, DecidableEq

/-- Tag-stripping scanner: outside a tag (flag false) it keeps
characters until an opening angle bracket, inside a tag (flag true) it
drops characters up to and including the closing angle bracket. -/
def stripTagsAux : Bool → List Char → List Char
  | _, [] => []
  | true, c :: rest => if c = '>' then stripTagsAux false rest else stripTagsAux true rest
  | false, c :: rest =>
    if c = '<' then stripTagsAux true rest else c :: stripTagsAux false rest

/-- Modelled from the spec: the Task Input Validator's sanitization step
of the production create-task handler, which is absent from the source
tree.  Spec section 4.2: sanitizes title and description by stripping
executable markup (for example script tags) in place. -/
def sanitize (s : String) : String := ⟨stripTagsAux false s.data⟩

/-- Is this lookup result an existing, active directory user? -/
def isActive : Option DirUser → Bool
  | some u => u.status = "active"
  | none => false

/-- Modelled from the spec: the Assignee Resolver of the production
create-task handler, absent from the source tree.  Spec section 4.3:
de-duplicates the identifiers, looks every one up in the directory and
applies the all-or-nothing policy: if any identifier fails to resolve to
an existing, active user the whole resolution fails. -/
def resolveAssignees (dir : String → Option DirUser) (ids : List String) :
    Option (List DirUser) :=
  let uniq := ids.dedup
  if uniq.all (fun i => isActive (dir i)) then some (uniq.filterMap dir) else none

/-- Modelled from the spec: the Notification Dispatcher's subject line,
absent from the source tree.  Spec section 4.5 and the urgent-email unit
test: an urgent task's subject carries the alert marker and the word
Urgent, other priorities get the plain subject. -/
def subjectFor (priority : String) : String :=
  if priority = "urgent" then "🚨 Urgent: New Task Assignment" else "New Task Assignment"

/-- Modelled from the spec: the Notification Dispatcher, absent from the
source tree.  Spec section 4.5: exactly one send per resolved assignee,
addressed to the resolved email, content varying by priority. -/
def notifyAll (users : List DirUser) (t : Task) : List EmailMsg :=
  users.map (fun u =>
    { recipient := u.email, subject := subjectFor t.priority
      body := "You have been assigned: " ++ t.title })

/-- Modelled from the spec: the task record built by the Persisting
step of the production create-task handler, absent from the source
tree.  Spec section 4.6 step 4: freshly generated identifier, sanitized
text fields, the workflow default priority normal when the payload has
none, status To Do, de-duplicated assignees, creator and timestamp. -/
def persistedTask (p : Payload) (freshId : Nat) (actorId now : String) : Task :=
  { taskId := freshId, title := sanitize p.title
    description := sanitize p.description
    priority := p.priority.getD "normal", status := "To Do"
    assignedTo := p.assignedTo.dedup, dueDate := p.dueDate
    createdBy := actorId, createdAt := now }

/-- Modelled from the spec: the production create-task Lambda handler
(the Task Creation Workflow of spec section 4.6), which is absent from
the source tree; only its unit tests and a demonstration mock are
shipped.  Sequence: authorize the actor role, validate the payload,
resolve the assignees all-or-nothing, persist with a freshly generated
identifier and status To Do, then send one email per resolved assignee.
putOk stands for the outcome of the storage put call, freshId for the
generated identifier, actorId and now for the caller identity and
current time. -/
def createTask (role : Option String) (p : Payload)
    (dir : String → Option DirUser) (putOk : Bool) (freshId : Nat)
    (actorId : String) (now : String) : WfResult :=
  if role ≠ some "admin" then
    { statusCode := 403, message := "Only admins can create tasks"
      task := none, putCalls := 0, lookupCalls := 0, sends := [] }
  else if p.title = "" ∨ p.assignedTo = [] then
    { statusCode := 400, message := "Missing required fields"
      task := none, putCalls := 0, lookupCalls := 0, sends := [] }
  else if ¬ (p.priority.getD "normal") ∈ validPriorities then
    { statusCode := 400, message := "Invalid priority"
      task := none, putCalls := 0, lookupCalls := 0, sends := [] }
  else
    let uniq := p.assignedTo.dedup
    match resolveAssignees dir p.assignedTo with
    | none =>
      { statusCode := 400, message := "Invalid assignees"
        task := none, putCalls := 0, lookupCalls := uniq.length, sends := [] }
    | some users =>
      let t := persistedTask p freshId actorId now
      if putOk then
        { statusCode := 201, message := "", task := some t
          putCalls := 1, lookupCalls := uniq.length, sends := notifyAll users t }
      else
        { statusCode := 500, message := "Internal server error"
          task := none, putCalls := 1, lookupCalls := uniq.length, sends := [] }

/-- Substring containment: t occurs inside s. -/
def SubStr (s t : String) : Prop := ∃ pre post : String, s = pre ++ t ++ post

/-! ### The demonstration mock handler of create-task.test.js (lines 11-26)

The unit test file defines its own simplified handler.  Its parsed JSON
body is a JavaScript object, modelled as an association list of fields
holding either a string or an array of strings. -/

/-- A JSON value as used by the mock handler's body: a string or an
array of strings. -/
inductive JVal where
  | str (s : String)
  | arr (a : List String)
deriving Repr, DecidableEq

/-- A JavaScript object: an association list from field names to
values.  Objects built by the mock handler have pairwise distinct
keys. -/
abbrev Obj := List (String × JVal)

/-- Field access o.k: the value of the first entry named k. -/
def getField : Obj → String → Option JVal
  | [], _ => none
  | (k, v) :: rest, q => if k = q then some v else getField rest q

/-- Remove every entry named k. -/
def removeField : Obj → String → Obj
  | [], _ => []
  | (a, w) :: rest, k =>
    if a = k then removeField rest k else (a, w) :: removeField rest k

/-- JavaScript property assignment: replace any entry named k by the
new value, appended in last position. -/
def setField (o : Obj) (k : String) (v : JVal) : Obj :=
  removeField o k ++ [(k, v)]

/-- JavaScript object spread: assign every field of the second object
onto the first, in order, later fields overriding earlier ones. -/
def mergeObj (o1 : Obj) : Obj → Obj
  | [] => o1
  | (k, v) :: rest => mergeObj (setField o1 k v) rest

/-- JavaScript truthiness of an optional field value: undefined and the
empty string are falsy, every other string and every array (the empty
array included) is truthy. -/
def truthy : Option JVal → Bool
  | none => false
  | some (JVal.str s) => s ≠ ""
  | some (JVal.arr _) => true

/-- The task object literal of create-task.test.js line 24:
braces taskId: test-123, spread body, status: To Do end-braces.  The
default identifier comes first, the body's fields override it, and
status is assigned last. -/
def mkTaskObj (body : Obj) : Obj :=
  setField (mergeObj [("taskId", JVal.str "test-123")] body) "status" (JVal.str "To Do")

/-- The event handed to the mock handler: the custom role claim of the
authorizer (undefined when absent) and the parsed JSON body. -/
structure MockEvent where
  role : Option String
  body : Obj

/-- The mock handler's response: status code, error message when any,
and the task object of a 201 body. -/
structure MockResponse where
  statusCode : Nat
  message : Option String
  task : Option Obj

/-- The mock handler of create-task.test.js lines 11-26: non-admin
roles get 403, a falsy title or falsy assignedTo gets 400, otherwise
201 with the spread task object. -/
def mockHandler (e : MockEvent) : MockResponse :=
  if e.role ≠ some "admin" then
    { statusCode := 403, message := some "Only admins can create tasks", task := none }
  else if ¬ truthy (getField e.body "title") ∨ ¬ truthy (getField e.body "assignedTo") then
    { statusCode := 400, message := some "Missing required fields", task := none }
  else
    { statusCode := 201, message := none, task := some (mkTaskObj e.body) }

/-! ### Helper lemmas -/

/-- The tag stripper never emits an opening angle bracket. -/
theorem lt_not_mem_stripTagsAux (l : List Char) : ∀ b : Bool, '<' ∉ stripTagsAux b l := by
  induction l with
  | nil => intro b; cases b <;> simp [stripTagsAux]
  | cons c rest ih =>
    intro b
    cases b with
    | true =>
      by_cases hc : c = '>' <;> simp [stripTagsAux, hc, ih]
    | false =>
      by_cases hc : c = '<'
      · simp [stripTagsAux, hc, ih]
      · simp [stripTagsAux, hc]
        exact ⟨fun h => hc h.symm, ih false⟩

/-- Sanitized text contains no opening angle bracket. -/
theorem lt_not_mem_sanitize (s : String) : '<' ∉ (sanitize s).data :=
  lt_not_mem_stripTagsAux s.data false

/-- Every character of a substring is a character of the enclosing
string. -/
theorem subStr_data_mem {s t : String} (h : SubStr s t) :
    ∀ c ∈ t.data, c ∈ s.data := by
  obtain ⟨pre, post, hs⟩ := h
  intro c hc
  rw [hs, String.data_append, String.data_append]
  simp [hc]

/-- Sanitized text never contains a script tag. -/
theorem sanitize_no_script (s : String) : ¬ SubStr (sanitize s) "<script>" := by
  intro h
  exact lt_not_mem_sanitize s (subStr_data_mem h '<' (by decide))

/-- Any task returned by the workflow carries the freshly generated
identifier, status To Do, and the sanitized title and description. -/
theorem createTask_task_shape (role : Option String) (p : Payload)
    (dir : String → Option DirUser) (putOk : Bool) (freshId : Nat)
    (actorId now : String) (t : Task)
    (h : (createTask role p dir putOk freshId actorId now).task = some t) :
    t.taskId = freshId ∧ t.status = "To Do" ∧
      t.title = sanitize p.title ∧ t.description = sanitize p.description := by
  unfold createTask at h
  split at h
  · simp at h
  split at h
  · simp at h
  split at h
  · simp at h
  split at h
  · simp at h
  split at h
  · simp only [Option.some.injEq] at h
    subst h
    exact ⟨rfl, rfl, rfl, rfl⟩
  · simp at h

/-- If every element maps to some value, filterMap preserves length. -/
theorem length_filterMap_of_all_isSome {α β : Type} (f : α → Option β) :
    ∀ l : List α, (∀ a ∈ l, (f a).isSome) → (l.filterMap f).length = l.length := by
  intro l
  induction l with
  | nil => intro _; rfl
  | cons a tl ih =>
    intro h
    have ha : (f a).isSome := h a (List.mem_cons_self a tl)
    obtain ⟨b, hb⟩ := Option.isSome_iff_exists.mp ha
    simp [List.filterMap_cons, hb, ih (fun x hx => h x (List.mem_cons_of_mem a hx))]

/-- Over a duplicate-free list of identifiers that all resolve, with
pairwise distinct resolved emails, the resolved email list is
duplicate-free. -/
theorem nodup_resolved_emails (dir : String → Option DirUser) :
    ∀ l : List String, l.Nodup → (∀ a ∈ l, (dir a).isSome) →
    (∀ a ∈ l, ∀ b ∈ l, a ≠ b →
      (dir a).map DirUser.email ≠ (dir b).map DirUser.email) →
    ((l.filterMap dir).map DirUser.email).Nodup := by
  intro l
  induction l with
  | nil => intro _ _ _; simp
  | cons a tl ih =>
    intro hnd hsome hinj
    obtain ⟨u, hu⟩ := Option.isSome_iff_exists.mp (hsome a (List.mem_cons_self a tl))
    have hnd' := List.nodup_cons.mp hnd
    simp only [List.filterMap_cons, hu, List.map_cons, List.nodup_cons]
    constructor
    · intro hmem
      obtain ⟨v, hv, hve⟩ := List.mem_map.mp hmem
      obtain ⟨b, hb, hbv⟩ := List.mem_filterMap.mp hv
      have hab : a ≠ b := fun hab => hnd'.1 (hab ▸ hb)
      have := hinj a (List.mem_cons_self a tl) b (List.mem_cons_of_mem a hb) hab
      rw [hu, hbv] at this
      simp only [Option.map_some'] at this
      exact this (by rw [hve])
    · exact ih hnd'.2 (fun x hx => hsome x (List.mem_cons_of_mem a hx))
        (fun x hx y hy => hinj x (List.mem_cons_of_mem a hx) y (List.mem_cons_of_mem a hy))

/-! ### Concrete fixtures mirroring the unit test mocks -/

/-- Directory of the unit test default mock: user-123 is an active
member with the email of the test mock. -/
def dirTest : String → Option DirUser := fun u =>
  if u = "user-123" then
    some { userId := "user-123", email := "member@amalitechtraining.org", status := "active" }
  else none

/-- Directory of the multiple-assignees test: two active users. -/
def dirTwo : String → Option DirUser := fun u =>
  if u = "user1" then
    some { userId := "user1", email := "user1@amalitechtraining.org", status := "active" }
  else if u = "user2" then
    some { userId := "user2", email := "user2@amalitechtraining.org", status := "active" }
  else none

/-- The valid payload of the first unit test. -/
def payTest : Payload :=
  { title := "Test Task", description := "Test Description", priority := some "normal"
    dueDate := some "2026-03-15", assignedTo := ["user-123"] }

/-- The urgent payload of the urgent-notification unit test. -/
def payUrgent : Payload :=
  { title := "Urgent Task", description := "Critical bug fix needed", priority := some "urgent"
    dueDate := some "2026-03-12", assignedTo := ["user-123"] }

/-- A payload with a duplicated assignee identifier, from the
duplicate-collapse property of the spec. -/
def payDup : Payload :=
  { title := "Multi-User Task", description := "Collaborative task", priority := some "normal"
    dueDate := none, assignedTo := ["user1", "user2", "user1"] }

/-! ### Claims -/

/-- C1: for every task-creation request whose actor role is not admin,
the workflow returns HTTP 403 with message "Only admins can create
tasks", performs no persistence call and no notification send,
regardless of payload validity. -/
theorem c1_nonadmin_forbidden (role : Option String) (h : role ≠ some "admin")
    (p : Payload) (dir : String → Option DirUser) (putOk : Bool) (freshId : Nat)
    (actorId now : String) :
    createTask role p dir putOk freshId actorId now =
      { statusCode := 403, message := "Only admins can create tasks",
        task := none, putCalls := 0, lookupCalls := 0, sends := [] } := by
  simp [createTask, h]

theorem c1_nonadmin_forbidden_witness :
    (some "member" : Option String) ≠ some "admin" ∧
    createTask (some "member") payTest dirTest true 1 "member-123" "2026-03-10" =
      { statusCode := 403, message := "Only admins can create tasks",
        task := none, putCalls := 0, lookupCalls := 0, sends := [] } :=
  ⟨by decide,
   c1_nonadmin_forbidden (some "member") (by decide) payTest dirTest true 1
     "member-123" "2026-03-10"⟩

/-- C2: for every admin request whose payload lacks a non-empty title,
lacks a non-empty assignedTo, or carries a priority outside the four
allowed values, the validator rejects with HTTP 400 and no persistence
call; in the missing-field case the message is "Missing required
fields". -/
theorem c2_validation_rejects (p : Payload) (dir : String → Option DirUser)
    (putOk : Bool) (freshId : Nat) (actorId now : String)
    (h : p.title = "" ∨ p.assignedTo = [] ∨
      ∃ pr, p.priority = some pr ∧ pr ∉ validPriorities) :
    (createTask (some "admin") p dir putOk freshId actorId now).statusCode = 400 ∧
    (createTask (some "admin") p dir putOk freshId actorId now).putCalls = 0 ∧
    (createTask (some "admin") p dir putOk freshId actorId now).task = none ∧
    (createTask (some "admin") p dir putOk freshId actorId now).sends = [] ∧
    ((p.title = "" ∨ p.assignedTo = []) →
      (createTask (some "admin") p dir putOk freshId actorId now).message =
        "Missing required fields") := by
  by_cases h1 : p.title = "" ∨ p.assignedTo = []
  · simp only [createTask]
    simp [h1]
  · rcases h with h | h | ⟨pr, hpr, hmem⟩
    · exact absurd (Or.inl h) h1
    · exact absurd (Or.inr h) h1
    · have hbad : ¬ (p.priority.getD "normal") ∈ validPriorities := by
        rw [hpr]; exact hmem
      simp [createTask, h1, hbad]

/-- The payload of the required-fields unit test: description only,
title and assignedTo missing. -/
def payNoTitle : Payload :=
  { title := "", description := "Test Description", priority := none
    dueDate := none, assignedTo := [] }

theorem c2_validation_rejects_witness :
    (payNoTitle.title = "" ∨ payNoTitle.assignedTo = [] ∨
      ∃ pr, payNoTitle.priority = some pr ∧ pr ∉ validPriorities) ∧
    (createTask (some "admin") payNoTitle dirTest true 1 "admin-123"
      "2026-03-10").statusCode = 400 ∧
    (createTask (some "admin") payNoTitle dirTest true 1 "admin-123"
      "2026-03-10").putCalls = 0 ∧
    (createTask (some "admin") payNoTitle dirTest true 1 "admin-123"
      "2026-03-10").message = "Missing required fields" :=
  ⟨Or.inl rfl,
   (c2_validation_rejects payNoTitle dirTest true 1 "admin-123" "2026-03-10"
     (Or.inl rfl)).1,
   (c2_validation_rejects payNoTitle dirTest true 1 "admin-123" "2026-03-10"
     (Or.inl rfl)).2.1,
   (c2_validation_rejects payNoTitle dirTest true 1 "admin-123" "2026-03-10"
     (Or.inl rfl)).2.2.2.2 (Or.inl rfl)⟩

/-- C3: for every admin-submitted payload carrying at least one
assignee identifier that does not resolve to an existing, active user,
the workflow returns HTTP 400 with zero persistence calls and zero
sends, and — once the payload passes input validation — the message
"Invalid assignees". -/
theorem c3_invalid_assignee_rejects (p : Payload) (dir : String → Option DirUser)
    (putOk : Bool) (freshId : Nat) (actorId now : String)
    (h : ∃ a ∈ p.assignedTo, ¬ isActive (dir a)) :
    (createTask (some "admin") p dir putOk freshId actorId now).statusCode = 400 ∧
    (createTask (some "admin") p dir putOk freshId actorId now).putCalls = 0 ∧
    (createTask (some "admin") p dir putOk freshId actorId now).task = none ∧
    (createTask (some "admin") p dir putOk freshId actorId now).sends = [] ∧
    (p.title ≠ "" → p.assignedTo ≠ [] →
      (p.priority.getD "normal") ∈ validPriorities →
      (createTask (some "admin") p dir putOk freshId actorId now).message =
        "Invalid assignees") := by
  obtain ⟨a, ha, hact⟩ := h
  have hall : ¬ (p.assignedTo.dedup.all (fun i => isActive (dir i)) = true) := by
    rw [List.all_eq_true]
    intro hall
    exact hact (hall a (List.mem_dedup.mpr ha))
  have hres : resolveAssignees dir p.assignedTo = none := by
    unfold resolveAssignees
    simp [hall]
  by_cases h1 : p.title = "" ∨ p.assignedTo = []
  · rcases h1 with h1 | h1 <;> simp [createTask, h1]
  · by_cases h2 : (p.priority.getD "normal") ∈ validPriorities
    · simp [createTask, h1, h2, hres]
    · simp [createTask, h1, h2]

/-- The payload of the invalid-assignees unit test. -/
def payInvalid : Payload :=
  { title := "Invalid Task", description := "Task with invalid user"
    priority := some "normal", dueDate := none, assignedTo := ["invalid-user"] }

theorem c3_invalid_assignee_rejects_witness :
    (∃ a ∈ payInvalid.assignedTo, ¬ isActive (dirTest a)) ∧
    (createTask (some "admin") payInvalid dirTest true 1 "admin-123"
      "2026-03-10").statusCode = 400 ∧
    (createTask (some "admin") payInvalid dirTest true 1 "admin-123"
      "2026-03-10").putCalls = 0 ∧
    (createTask (some "admin") payInvalid dirTest true 1 "admin-123"
      "2026-03-10").message = "Invalid assignees" :=
  ⟨by decide,
   (c3_invalid_assignee_rejects payInvalid dirTest true 1 "admin-123" "2026-03-10"
     (by decide)).1,
   (c3_invalid_assignee_rejects payInvalid dirTest true 1 "admin-123" "2026-03-10"
     (by decide)).2.1,
   (c3_invalid_assignee_rejects payInvalid dirTest true 1 "admin-123" "2026-03-10"
     (by decide)).2.2.2.2 (by decide) (by decide) (by decide)⟩

/-- Under the success hypotheses (admin, valid payload, every assignee
resolving to an active user) and a successful put, the workflow result
is the 201 record with the persisted task and the dispatched emails. -/
theorem createTask_success_201 (p : Payload) (dir : String → Option DirUser)
    (freshId : Nat) (actorId now : String)
    (ht : p.title ≠ "") (ha : p.assignedTo ≠ [])
    (hpr : (p.priority.getD "normal") ∈ validPriorities)
    (hres : ∀ a ∈ p.assignedTo, isActive (dir a)) :
    createTask (some "admin") p dir true freshId actorId now =
      { statusCode := 201, message := ""
        task := some (persistedTask p freshId actorId now)
        putCalls := 1, lookupCalls := p.assignedTo.dedup.length
        sends := notifyAll (p.assignedTo.dedup.filterMap dir)
          (persistedTask p freshId actorId now) } := by
  have hall : p.assignedTo.dedup.all (fun i => isActive (dir i)) = true := by
    rw [List.all_eq_true]
    intro a haa
    exact hres a (List.mem_dedup.mp haa)
  have hresolve : resolveAssignees dir p.assignedTo =
      some (p.assignedTo.dedup.filterMap dir) := by
    unfold resolveAssignees
    simp [hall]
  have h1 : ¬ (p.title = "" ∨ p.assignedTo = []) := by
    push_neg
    exact ⟨ht, ha⟩
  simp [createTask, h1, hpr, hresolve]

/-- Under the success hypotheses but a failing put, the workflow result
is the 500 record, with one put attempt and no sends. -/
theorem createTask_put_failed_500 (p : Payload) (dir : String → Option DirUser)
    (freshId : Nat) (actorId now : String)
    (ht : p.title ≠ "") (ha : p.assignedTo ≠ [])
    (hpr : (p.priority.getD "normal") ∈ validPriorities)
    (hres : ∀ a ∈ p.assignedTo, isActive (dir a)) :
    createTask (some "admin") p dir false freshId actorId now =
      { statusCode := 500, message := "Internal server error", task := none
        putCalls := 1, lookupCalls := p.assignedTo.dedup.length, sends := [] } := by
  have hall : p.assignedTo.dedup.all (fun i => isActive (dir i)) = true := by
    rw [List.all_eq_true]
    intro a haa
    exact hres a (List.mem_dedup.mp haa)
  have hresolve : resolveAssignees dir p.assignedTo =
      some (p.assignedTo.dedup.filterMap dir) := by
    unfold resolveAssignees
    simp [hall]
  have h1 : ¬ (p.title = "" ∨ p.assignedTo = []) := by
    push_neg
    exact ⟨ht, ha⟩
  simp [createTask, h1, hpr, hresolve]

/-- C4: for every admin-submitted valid payload whose assignees all
resolve to active users, the workflow returns HTTP 201 carrying the
persisted task, the task status is To Do, exactly one persistence call
occurs, and one email goes to each resolved assignee address. -/
theorem c4_valid_creation_succeeds (p : Payload) (dir : String → Option DirUser)
    (freshId : Nat) (actorId now : String)
    (ht : p.title ≠ "") (ha : p.assignedTo ≠ [])
    (hpr : (p.priority.getD "normal") ∈ validPriorities)
    (hres : ∀ a ∈ p.assignedTo, isActive (dir a)) :
    (createTask (some "admin") p dir true freshId actorId now).statusCode = 201 ∧
    (createTask (some "admin") p dir true freshId actorId now).task =
      some (persistedTask p freshId actorId now) ∧
    (persistedTask p freshId actorId now).status = "To Do" ∧
    (createTask (some "admin") p dir true freshId actorId now).putCalls = 1 ∧
    (createTask (some "admin") p dir true freshId actorId now).sends.map
        EmailMsg.recipient =
      (p.assignedTo.dedup.filterMap dir).map DirUser.email := by
  rw [createTask_success_201 p dir freshId actorId now ht ha hpr hres]
  refine ⟨rfl, rfl, rfl, rfl, ?_⟩
  simp [notifyAll, List.map_map]

theorem c4_valid_creation_succeeds_witness :
    payTest.title ≠ "" ∧ payTest.assignedTo ≠ [] ∧
    (payTest.priority.getD "normal") ∈ validPriorities ∧
    (∀ a ∈ payTest.assignedTo, isActive (dirTest a)) ∧
    ((createTask (some "admin") payTest dirTest true 7 "admin-123"
        "2026-03-10").statusCode = 201 ∧
      (createTask (some "admin") payTest dirTest true 7 "admin-123"
        "2026-03-10").task = some (persistedTask payTest 7 "admin-123" "2026-03-10") ∧
      (persistedTask payTest 7 "admin-123" "2026-03-10").status = "To Do" ∧
      (createTask (some "admin") payTest dirTest true 7 "admin-123"
        "2026-03-10").putCalls = 1 ∧
      (createTask (some "admin") payTest dirTest true 7 "admin-123"
        "2026-03-10").sends.map EmailMsg.recipient =
        (payTest.assignedTo.dedup.filterMap dirTest).map DirUser.email) :=
  ⟨by decide, by decide, by decide, by decide,
   c4_valid_creation_succeeds payTest dirTest 7 "admin-123" "2026-03-10"
     (by decide) (by decide) (by decide) (by decide)⟩

/-- C7: for every creation attempt in which the storage put fails, the
workflow returns HTTP 500 with message "Internal server error", the
write is attempted exactly once (no retry), and no notification is
sent. -/
theorem c7_storage_failure_500 (p : Payload) (dir : String → Option DirUser)
    (freshId : Nat) (actorId now : String)
    (ht : p.title ≠ "") (ha : p.assignedTo ≠ [])
    (hpr : (p.priority.getD "normal") ∈ validPriorities)
    (hres : ∀ a ∈ p.assignedTo, isActive (dir a)) :
    createTask (some "admin") p dir false freshId actorId now =
      { statusCode := 500, message := "Internal server error", task := none
        putCalls := 1, lookupCalls := p.assignedTo.dedup.length, sends := [] } :=
  createTask_put_failed_500 p dir freshId actorId now ht ha hpr hres

theorem c7_storage_failure_500_witness :
    payTest.title ≠ "" ∧ payTest.assignedTo ≠ [] ∧
    (payTest.priority.getD "normal") ∈ validPriorities ∧
    (∀ a ∈ payTest.assignedTo, isActive (dirTest a)) ∧
    createTask (some "admin") payTest dirTest false 7 "admin-123" "2026-03-10" =
      { statusCode := 500, message := "Internal server error", task := none
        putCalls := 1, lookupCalls := payTest.assignedTo.dedup.length, sends := [] } :=
  ⟨by decide, by decide, by decide, by decide,
   c7_storage_failure_500 payTest dirTest 7 "admin-123" "2026-03-10"
     (by decide) (by decide) (by decide) (by decide)⟩

/-- C9: every task returned by the workflow carries the identifier the
workflow generated, never one from the payload, and two invocations
with distinct generated identifiers yield tasks with distinct
identifiers. -/
theorem c9_task_ids_distinct (role₁ role₂ : Option String) (p₁ p₂ : Payload)
    (dir₁ dir₂ : String → Option DirUser) (putOk₁ putOk₂ : Bool)
    (id₁ id₂ : Nat) (a₁ a₂ n₁ n₂ : String) (t₁ t₂ : Task)
    (h₁ : (createTask role₁ p₁ dir₁ putOk₁ id₁ a₁ n₁).task = some t₁)
    (h₂ : (createTask role₂ p₂ dir₂ putOk₂ id₂ a₂ n₂).task = some t₂)
    (hne : id₁ ≠ id₂) :
    t₁.taskId = id₁ ∧ t₂.taskId = id₂ ∧ t₁.taskId ≠ t₂.taskId := by
  have s₁ := createTask_task_shape role₁ p₁ dir₁ putOk₁ id₁ a₁ n₁ t₁ h₁
  have s₂ := createTask_task_shape role₂ p₂ dir₂ putOk₂ id₂ a₂ n₂ t₂ h₂
  refine ⟨s₁.1, s₂.1, ?_⟩
  rw [s₁.1, s₂.1]
  exact hne

theorem c9_task_ids_distinct_witness :
    (createTask (some "admin") payTest dirTest true 1 "admin-123" "t1").task =
      some (persistedTask payTest 1 "admin-123" "t1") ∧
    (createTask (some "admin") payTest dirTest true 2 "admin-123" "t2").task =
      some (persistedTask payTest 2 "admin-123" "t2") ∧
    (persistedTask payTest 1 "admin-123" "t1").taskId ≠
      (persistedTask payTest 2 "admin-123" "t2").taskId :=
  ⟨by decide, by decide,
   (c9_task_ids_distinct (some "admin") (some "admin") payTest payTest dirTest
     dirTest true true 1 2 "admin-123" "admin-123" "t1" "t2"
     (persistedTask payTest 1 "admin-123" "t1")
     (persistedTask payTest 2 "admin-123" "t2")
     (by decide) (by decide) (by decide)).2.2⟩

/-- An active lookup result is in particular a successful lookup. -/
theorem isSome_of_isActive {o : Option DirUser} (h : isActive o) : o.isSome := by
  cases o
  · simp [isActive] at h
  · rfl

/-- C5: for every valid creation, exactly one notification send occurs
per distinct assignee identifier, each to a distinct resolved email,
and the directory is consulted exactly once per distinct identifier. -/
theorem c5_one_send_per_distinct_assignee (p : Payload)
    (dir : String → Option DirUser) (freshId : Nat) (actorId now : String)
    (ht : p.title ≠ "") (ha : p.assignedTo ≠ [])
    (hpr : (p.priority.getD "normal") ∈ validPriorities)
    (hres : ∀ a ∈ p.assignedTo, isActive (dir a))
    (hinj : ∀ a ∈ p.assignedTo, ∀ b ∈ p.assignedTo, a ≠ b →
      (dir a).map DirUser.email ≠ (dir b).map DirUser.email) :
    (createTask (some "admin") p dir true freshId actorId now).sends.length =
      p.assignedTo.dedup.length ∧
    (createTask (some "admin") p dir true freshId actorId now).lookupCalls =
      p.assignedTo.dedup.length ∧
    ((createTask (some "admin") p dir true freshId actorId now).sends.map
      EmailMsg.recipient).Nodup := by
  rw [createTask_success_201 p dir freshId actorId now ht ha hpr hres]
  have hsome : ∀ a ∈ p.assignedTo.dedup, (dir a).isSome := fun a haa =>
    isSome_of_isActive (hres a (List.mem_dedup.mp haa))
  refine ⟨?_, rfl, ?_⟩
  · simp only [notifyAll, List.length_map]
    exact length_filterMap_of_all_isSome dir _ hsome
  · have hn := nodup_resolved_emails dir p.assignedTo.dedup
      (List.nodup_dedup p.assignedTo) hsome
      (fun a haa b hab hne =>
        hinj a (List.mem_dedup.mp haa) b (List.mem_dedup.mp hab) hne)
    simpa [notifyAll, List.map_map] using hn

theorem c5_one_send_per_distinct_assignee_witness :
    payDup.title ≠ "" ∧ payDup.assignedTo ≠ [] ∧
    (payDup.priority.getD "normal") ∈ validPriorities ∧
    (∀ a ∈ payDup.assignedTo, isActive (dirTwo a)) ∧
    (∀ a ∈ payDup.assignedTo, ∀ b ∈ payDup.assignedTo, a ≠ b →
      (dirTwo a).map DirUser.email ≠ (dirTwo b).map DirUser.email) ∧
    ((createTask (some "admin") payDup dirTwo true 1 "admin-123"
        "2026-03-10").sends.length = payDup.assignedTo.dedup.length ∧
      (createTask (some "admin") payDup dirTwo true 1 "admin-123"
        "2026-03-10").lookupCalls = payDup.assignedTo.dedup.length ∧
      ((createTask (some "admin") payDup dirTwo true 1 "admin-123"
        "2026-03-10").sends.map EmailMsg.recipient).Nodup) ∧
    payDup.assignedTo.dedup.length = 2 :=
  ⟨by decide, by decide, by decide, by decide, by decide,
   c5_one_send_per_distinct_assignee payDup dirTwo 1 "admin-123" "2026-03-10"
     (by decide) (by decide) (by decide) (by decide) (by decide),
   by decide⟩

/-- C6: in every accepted creation the persisted title and description
are the sanitized payload fields, and neither contains a script tag any
longer; the payload is transformed, not rejected. -/
theorem c6_sanitized_fields (role : Option String) (p : Payload)
    (dir : String → Option DirUser) (putOk : Bool) (freshId : Nat)
    (actorId now : String) (t : Task)
    (h : (createTask role p dir putOk freshId actorId now).task = some t) :
    t.title = sanitize p.title ∧ t.description = sanitize p.description ∧
    ¬ SubStr t.title "<script>" ∧ ¬ SubStr t.description "<script>" := by
  have s := createTask_task_shape role p dir putOk freshId actorId now t h
  refine ⟨s.2.2.1, s.2.2.2, ?_, ?_⟩
  · rw [s.2.2.1]
    exact sanitize_no_script p.title
  · rw [s.2.2.2]
    exact sanitize_no_script p.description

/-- The payload of the sanitization unit test: a title carrying a
script tag. -/
def payScript : Payload :=
  { title := "<script>alert(\"xss\")</script>Task", description := "Normal description"
    priority := some "normal", dueDate := none, assignedTo := ["user-123"] }

theorem c6_sanitized_fields_witness :
    (createTask (some "admin") payScript dirTest true 1 "admin-123" "t").task =
      some (persistedTask payScript 1 "admin-123" "t") ∧
    (persistedTask payScript 1 "admin-123" "t").title = sanitize payScript.title ∧
    ¬ SubStr (persistedTask payScript 1 "admin-123" "t").title "<script>" ∧
    (persistedTask payScript 1 "admin-123" "t").title = "alert(\"xss\")Task" :=
  ⟨by decide,
   (c6_sanitized_fields (some "admin") payScript dirTest true 1 "admin-123" "t"
     (persistedTask payScript 1 "admin-123" "t") (by decide)).1,
   (c6_sanitized_fields (some "admin") payScript dirTest true 1 "admin-123" "t"
     (persistedTask payScript 1 "admin-123" "t") (by decide)).2.2.1,
   by decide⟩

/-- Every message the workflow sends has the subject determined by the
effective priority of the payload. -/
theorem sends_subject (role : Option String) (p : Payload)
    (dir : String → Option DirUser) (putOk : Bool) (freshId : Nat)
    (actorId now : String) :
    ∀ m ∈ (createTask role p dir putOk freshId actorId now).sends,
      m.subject = subjectFor (p.priority.getD "normal") := by
  intro m hm
  unfold createTask at hm
  split at hm
  · simp at hm
  split at hm
  · simp at hm
  split at hm
  · simp at hm
  split at hm
  · simp at hm
  split at hm
  · simp only [notifyAll, List.mem_map] at hm
    obtain ⟨u, _, rfl⟩ := hm
    rfl
  · simp at hm

/-- The urgent subject contains the alert marker. -/
theorem urgent_subject_marker : SubStr (subjectFor "urgent") "🚨" :=
  ⟨"", " Urgent: New Task Assignment", by rfl⟩

/-- The urgent subject contains the word Urgent. -/
theorem urgent_subject_word : SubStr (subjectFor "urgent") "Urgent" :=
  ⟨"🚨 ", ": New Task Assignment", by rfl⟩

/-- The normal subject contains no alert marker. -/
theorem normal_subject_no_marker : ¬ SubStr (subjectFor "normal") "🚨" :=
  fun h => absurd (subStr_data_mem h '🚨' (by decide)) (by decide)

/-- The normal subject does not contain the word Urgent. -/
theorem normal_subject_no_word : ¬ SubStr (subjectFor "normal") "Urgent" :=
  fun h => absurd (subStr_data_mem h 'U' (by decide)) (by decide)

/-- C8: every notification of an urgent-priority creation carries a
subject containing the alert marker and the word Urgent; every
notification of a normal-priority creation carries neither. -/
theorem c8_priority_subjects (role : Option String) (p : Payload)
    (dir : String → Option DirUser) (putOk : Bool) (freshId : Nat)
    (actorId now : String) :
    (p.priority = some "urgent" →
      ∀ m ∈ (createTask role p dir putOk freshId actorId now).sends,
        SubStr m.subject "🚨" ∧ SubStr m.subject "Urgent") ∧
    (p.priority = some "normal" →
      ∀ m ∈ (createTask role p dir putOk freshId actorId now).sends,
        ¬ SubStr m.subject "🚨" ∧ ¬ SubStr m.subject "Urgent") := by
  constructor
  · intro hp m hm
    have hs := sends_subject role p dir putOk freshId actorId now m hm
    rw [hs, hp]
    exact ⟨urgent_subject_marker, urgent_subject_word⟩
  · intro hp m hm
    have hs := sends_subject role p dir putOk freshId actorId now m hm
    rw [hs, hp]
    exact ⟨normal_subject_no_marker, normal_subject_no_word⟩

/-- The one message sent for the urgent unit test payload. -/
def msgUrgent : EmailMsg :=
  { recipient := "member@amalitechtraining.org", subject := subjectFor "urgent"
    body := "You have been assigned: Urgent Task" }

/-- The one message sent for the valid normal-priority unit test
payload. -/
def msgNormal : EmailMsg :=
  { recipient := "member@amalitechtraining.org", subject := subjectFor "normal"
    body := "You have been assigned: Test Task" }

theorem c8_priority_subjects_witness :
    payUrgent.priority = some "urgent" ∧
    msgUrgent ∈
      (createTask (some "admin") payUrgent dirTest true 1 "admin-123" "t").sends ∧
    SubStr msgUrgent.subject "🚨" ∧ SubStr msgUrgent.subject "Urgent" ∧
    payTest.priority = some "normal" ∧
    msgNormal ∈
      (createTask (some "admin") payTest dirTest true 1 "admin-123" "t").sends ∧
    ¬ SubStr msgNormal.subject "🚨" ∧ ¬ SubStr msgNormal.subject "Urgent" :=
  ⟨rfl, by decide,
   ((c8_priority_subjects (some "admin") payUrgent dirTest true 1 "admin-123"
     "t").1 rfl msgUrgent (by decide)).1,
   ((c8_priority_subjects (some "admin") payUrgent dirTest true 1 "admin-123"
     "t").1 rfl msgUrgent (by decide)).2,
   rfl, by decide,
   ((c8_priority_subjects (some "admin") payTest dirTest true 1 "admin-123"
     "t").2 rfl msgNormal (by decide)).1,
   ((c8_priority_subjects (some "admin") payTest dirTest true 1 "admin-123"
     "t").2 rfl msgNormal (by decide)).2⟩

/-! ### Lookup lemmas for the mock handler's spread object -/

/-- Value of the last entry named q: a later JavaScript assignment
overrides an earlier one. -/
def lookLast : Obj → String → Option JVal
  | [], _ => none
  | (k, v) :: rest, q =>
    match lookLast rest q with
    | some w => some w
    | none => if k = q then some v else none

/-- First-match field access distributes over append. -/
theorem getField_append (l₁ l₂ : Obj) (q : String) :
    getField (l₁ ++ l₂) q = (getField l₁ q).elim (getField l₂ q) some := by
  induction l₁ with
  | nil => rfl
  | cons p tl ih =>
    obtain ⟨a, w⟩ := p
    by_cases ha : a = q <;> simp [getField, ha, ih]

/-- Removing the entries named k removes field k. -/
theorem getField_removeField_self (o : Obj) (k : String) :
    getField (removeField o k) k = none := by
  induction o with
  | nil => rfl
  | cons p tl ih =>
    obtain ⟨a, w⟩ := p
    by_cases ha : a = k
    · simp [removeField, ha, ih]
    · simp [removeField, getField, ha, ih]

/-- Removing the entries named k leaves every other field unchanged. -/
theorem getField_removeField_ne (o : Obj) (k q : String) (h : ¬ q = k) :
    getField (removeField o k) q = getField o q := by
  have hkq : ¬ k = q := fun hh => h hh.symm
  induction o with
  | nil => rfl
  | cons p tl ih =>
    obtain ⟨a, w⟩ := p
    by_cases ha : a = k
    · simp [removeField, ha, getField, hkq, ih]
    · by_cases haq : a = q <;> simp [removeField, ha, getField, haq, h, ih]

/-- After assigning field k, reading k yields the assigned value. -/
theorem getField_setField_self (o : Obj) (k : String) (v : JVal) :
    getField (setField o k v) k = some v := by
  simp only [setField, getField_append, getField_removeField_self]
  simp [getField]

/-- Assigning field k leaves every other field unchanged. -/
theorem getField_setField_ne (o : Obj) (k q : String) (v : JVal) (h : q ≠ k) :
    getField (setField o k v) q = getField o q := by
  have hkq : ¬ k = q := fun hh => h hh.symm
  simp only [setField, getField_append, getField_removeField_ne o k q h]
  cases hg : getField o q <;> simp [getField, hkq]

/-- Reading a field after spreading l onto o: the last assignment from
l wins, otherwise the field of o shows through. -/
theorem getField_mergeObj (l : Obj) : ∀ (o : Obj) (q : String),
    getField (mergeObj o l) q = (lookLast l q).elim (getField o q) some := by
  induction l with
  | nil =>
    intro o q
    rfl
  | cons p rest ih =>
    intro o q
    obtain ⟨k, v⟩ := p
    rw [mergeObj, ih]
    cases hrest : lookLast rest q with
    | some w => simp [lookLast, hrest]
    | none =>
      by_cases hk : k = q
      · subst hk
        simp [lookLast, hrest, getField_setField_self]
      · simp [lookLast, hrest, hk, getField_setField_ne o k q v (Ne.symm (by exact hk))]

/-- A name absent from the keys has no last assignment. -/
theorem lookLast_eq_none_of_not_mem (l : Obj) (q : String)
    (h : q ∉ l.map Prod.fst) : lookLast l q = none := by
  induction l with
  | nil => rfl
  | cons p tl ih =>
    obtain ⟨k, v⟩ := p
    simp only [List.map_cons, List.mem_cons] at h
    push_neg at h
    have hkq : ¬ k = q := fun hh => h.1 hh.symm
    rw [lookLast, ih h.2]
    simp [hkq]

/-- On an object with pairwise distinct keys, last-assignment lookup
and field access agree. -/
theorem lookLast_eq_getField_of_nodup (l : Obj)
    (h : (l.map Prod.fst).Nodup) : ∀ q : String, lookLast l q = getField l q := by
  induction l with
  | nil => intro q; rfl
  | cons p tl ih =>
    intro q
    obtain ⟨k, v⟩ := p
    simp only [List.map_cons, List.nodup_cons] at h
    by_cases hk : k = q
    · subst hk
      rw [lookLast, lookLast_eq_none_of_not_mem tl k h.1, getField]
      simp
    · rw [lookLast, getField, ih h.2 q]
      cases hg : getField tl q <;> simp [hk, hg]

/-- C10: for every creation the mock handler accepts, the returned task
object is the request body spread into the task literal: status is
forced to To Do, taskId is the body's own taskId when supplied and the
default test-123 otherwise, and every other body field passes through
unaltered with no whitelist. -/
theorem c10_body_passthrough (e : MockEvent) (t : Obj)
    (hkeys : (e.body.map Prod.fst).Nodup)
    (h : (mockHandler e).task = some t) :
    getField t "status" = some (JVal.str "To Do") ∧
    getField t "taskId" =
      some ((getField e.body "taskId").getD (JVal.str "test-123")) ∧
    ∀ k, k ≠ "status" → k ≠ "taskId" → getField t k = getField e.body k := by
  have ht : t = mkTaskObj e.body := by
    unfold mockHandler at h
    split at h
    · simp at h
    split at h
    · simp at h
    · simp only [Option.some.injEq] at h
      exact h.symm
  subst ht
  unfold mkTaskObj
  refine ⟨getField_setField_self _ _ _, ?_, ?_⟩
  · rw [getField_setField_ne _ _ _ _ (by decide), getField_mergeObj,
      lookLast_eq_getField_of_nodup e.body hkeys "taskId"]
    cases hg : getField e.body "taskId"
    · simp [getField]
    · simp
  · intro k hks hkt
    rw [getField_setField_ne _ _ _ _ hks, getField_mergeObj,
      lookLast_eq_getField_of_nodup e.body hkeys k]
    have hik : ¬ "taskId" = k := fun hh => hkt hh.symm
    cases hg : getField e.body k
    · simp [getField, hik]
    · simp

/-- Body of the C10 witness event: title, assignees, a caller-supplied
taskId and an unrecognized extra field. -/
def bodyC10 : Obj :=
  [("title", JVal.str "Test Task"), ("assignedTo", JVal.arr ["user-123"]),
   ("taskId", JVal.str "payload-id"), ("extra", JVal.str "x")]

/-- The C10 witness event: an admin request with bodyC10. -/
def evC10 : MockEvent := { role := some "admin", body := bodyC10 }

theorem c10_body_passthrough_witness :
    ((evC10.body.map Prod.fst).Nodup) ∧
    (mockHandler evC10).task = some (mkTaskObj bodyC10) ∧
    getField (mkTaskObj bodyC10) "status" = some (JVal.str "To Do") ∧
    getField (mkTaskObj bodyC10) "taskId" = some (JVal.str "payload-id") ∧
    getField (mkTaskObj bodyC10) "extra" = some (JVal.str "x") :=
  ⟨by decide, by decide,
   (c10_body_passthrough evC10 (mkTaskObj bodyC10) (by decide) (by decide)).1,
   by
     rw [(c10_body_passthrough evC10 (mkTaskObj bodyC10) (by decide)
       (by decide)).2.1]
     rfl,
   (c10_body_passthrough evC10 (mkTaskObj bodyC10) (by decide) (by decide)).2.2
     "extra" (by decide) (by decide)⟩

end AgileTasks
